import Mathlib

set_option maxHeartbeats 1000000

/-!
Shallow embedding of the LeadBoost AI content-extraction and rule-based
scoring engine (the scraper/extractor module and the linguistic ML-analysis
module), together with proofs checking the natural-language specification
against it.

Modelling conventions:
* JS strings are `List Char` (`Str`); JS numbers are `ℚ`, so the exact
  rational arithmetic stands in for IEEE doubles; `Math.round` is `jsRound`.
* The optional external libraries (the `natural` word tokenizer, the
  `compromise` syntactic parser, the `@xenova/transformers` sentiment
  model) are oracles carried in an `Env`; `none` / `modelsAvailable =
  false` is the degraded mode the code falls back to.
* The awaited transformer sentiment calls are the steps of `analyzeMl`
  that can reject; they are modelled in `Except Unit`.
* The HTML parser (`cheerio`) is external: a parsed page is modelled as a
  `Doc` holding the texts the extractor queries, in document order, after
  the `script/style/noscript/iframe` removal the code performs first.
-/

namespace LeadBoost

/-- JS strings as lists of characters. -/
abbrev Str := List Char

/-- Convert a Lean string literal to the embedded string type. -/
def strL (s : String) : Str := s.toList

/-- JS `String.prototype.trim`: strip leading and trailing whitespace. -/
def trimL (s : Str) : Str :=
  ((s.dropWhile Char.isWhitespace).reverse.dropWhile Char.isWhitespace).reverse

/-- JS `String.prototype.toLowerCase` (ASCII range, which is all the code compares). -/
def toLowerL (s : Str) : Str := s.map Char.toLower

/-- Does the second string begin with the first? (JS `String.prototype.startsWith`). -/
def startsWithL : Str → Str → Bool
  | [], _ => true
  | _ :: _, [] => false
  | c :: p, d :: s => c == d && startsWithL p s

/-- JS `String.prototype.includes`: substring containment. -/
def inclL : Str → Str → Bool
  | n, [] => n.isEmpty
  | n, h :: t => startsWithL n (h :: t) || inclL n t

mutual

/-- Auxiliary for `jsSplitRuns`; `cur` is the fragment being built, reversed. -/
def jsSplitRunsAux (p : Char → Bool) : Str → Str → List Str
  | [], cur => [cur.reverse]
  | c :: rest, cur =>
    if p c then cur.reverse :: jsSplitRunsSkip p rest
    else jsSplitRunsAux p rest (c :: cur)

/-- Auxiliary for `jsSplitRuns`: inside a separator run; skips the rest of
the run, then resumes fragment collection. -/
def jsSplitRunsSkip (p : Char → Bool) : Str → List Str
  | [] => [[]]
  | c :: rest => if p c then jsSplitRunsSkip p rest else jsSplitRunsAux p rest [c]

end

/-- JS `String.prototype.split` against a regex matching one-or-more
characters of a class: splits on maximal runs of characters satisfying
`p`, keeping empty fragments at the edges exactly as JS does. -/
def jsSplitRuns (p : Char → Bool) (s : Str) : List Str := jsSplitRunsAux p s []

/-- JS `text.split(/\s+/)`. -/
def jsSplitWs (s : Str) : List Str := jsSplitRuns Char.isWhitespace s

/-- Auxiliary: number of maximal runs of characters satisfying `p`;
`prev` records whether the previous character satisfied `p`. -/
def runsCountAux (p : Char → Bool) : Bool → Str → Nat
  | _, [] => 0
  | prev, c :: rest => (if p c && !prev then 1 else 0) + runsCountAux p (p c) rest

/-- Number of maximal runs of characters satisfying `p`: the length of
`s.match(/x+/g)` for a one-character class `x`. -/
def runsCount (p : Char → Bool) (s : Str) : Nat := runsCountAux p false s

/-- Number of matches of `/\d+%/g`: occurrences of a percent sign directly
preceded by a digit (each such `%` ends exactly one regex match). -/
def pctCount : Str → Nat
  | c :: d :: rest => (if c.isDigit && d == '%' then 1 else 0) + pctCount (d :: rest)
  | _ => 0

/-- Result of the `compromise` syntactic parse of one text (external
oracle): the verbs reported by `doc.verbs().out('array')` and the number
of `#ProperNoun` matches. -/
structure NlpDoc where
  verbs : List Str
  properNouns : Nat

instance : Inhabited NlpDoc := ⟨⟨[], 0⟩⟩

inductive SentLabel
  | POSITIVE
  | NEGATIVE
  | NEUTRAL
deriving DecidableEq

/-- The `{label, score}` sentiment record both sentiment paths produce. -/
structure Sentiment where
  label : SentLabel
  score : ℚ
deriving DecidableEq

/-- The process environment one `analyzeMl` run sees: the optional
`natural` word tokenizer, the optional `compromise` parser, whether
`initializeModels()` returned `true` (in the source that implies
`sentimentAnalyzer` is non-null, so the line-361 conjunction
`modelsAvailable && sentimentAnalyzer` collapses to this one flag), and
the transformer sentiment call, an awaited external step that may
reject. -/
structure Env where
  tokenizer : Option (Str → List Str)
  nlpDoc : Option (Str → NlpDoc)
  modelsAvailable : Bool
  mlSentiment : Str → Except Unit Sentiment

/-- `safeTokenize`: `natural.WordTokenizer` on the lowercased text when
available, else lowercase whitespace split dropping empty tokens. -/
def safeTokenize (env : Env) (text : Str) : List Str :=
  if text = [] then []
  else
    match env.tokenizer with
    | some tk => tk (toLowerL text)
    | none => (jsSplitWs (toLowerL text)).filter (fun w => decide (0 < w.length))

/-- `safeNlp`: the `compromise` parse when available, else `null`. -/
def safeNlp (env : Env) (text : Str) : Option NlpDoc :=
  if text = [] then none
  else env.nlpDoc.map (fun f => f text)

/-! ### Fixed lexicons (verbatim from the source) -/

def actionVerbs : List Str :=
  [strL "get", strL "start", strL "discover", strL "unlock", strL "learn",
   strL "create", strL "build", strL "achieve"]

def emotionalWords : List Str :=
  [strL "amazing", strL "incredible", strL "powerful", strL "essential",
   strL "ultimate", strL "revolutionary", strL "proven"]

def negationWords : List Str :=
  [strL "no", strL "never", strL "without", strL "stop"]

def ctaStartVerbs : List Str :=
  [strL "get", strL "start", strL "try", strL "join", strL "learn",
   strL "download", strL "sign", strL "buy", strL "subscribe"]

def ctaUrgencyWords : List Str :=
  [strL "now", strL "today", strL "instantly", strL "immediately"]

def freeOfferWords : List Str :=
  [strL "free", strL "trial", strL "0", strL "no cost"]

def genericCtas : List Str :=
  [strL "click here", strL "learn more", strL "read more", strL "submit"]

def vagueWords : List Str :=
  [strL "things", strL "stuff", strL "very", strL "really", strL "some",
   strL "many", strL "several"]

def benefitWords : List Str :=
  [strL "save", strL "gain", strL "improve", strL "increase", strL "boost",
   strL "enhance", strL "achieve", strL "success"]

def persuasiveUrgencyWords : List Str :=
  [strL "now", strL "today", strL "limited", strL "exclusive",
   strL "don\x27t miss", strL "hurry", strL "instantly"]

def socialProofWords : List Str :=
  [strL "trusted", strL "proven", strL "expert", strL "professional",
   strL "leading", strL "top-rated"]

def powerWords : List Str :=
  [strL "guaranteed", strL "revolutionary", strL "breakthrough",
   strL "transform", strL "ultimate"]

def positiveWords : List Str :=
  [strL "good", strL "great", strL "best", strL "amazing", strL "excellent",
   strL "love", strL "perfect", strL "awesome", strL "fantastic",
   strL "wonderful", strL "success", strL "win", strL "free", strL "easy",
   strL "fast", strL "new", strL "save", strL "gain"]

def negativeWords : List Str :=
  [strL "bad", strL "worst", strL "hate", strL "terrible", strL "awful",
   strL "fail", strL "problem", strL "issue", strL "difficult", strL "hard",
   strL "expensive", strL "slow", strL "old", strL "lose", strL "miss"]

/-! ### Readability -/

def isVowelY (c : Char) : Bool := ['a', 'e', 'i', 'o', 'u', 'y'].contains c

/-- `countSyllables`: vowel-group approximation on the lowercased,
alphabetic-only word. -/
def countSyllables (word : Str) : Nat :=
  let w := (toLowerL word).filter (fun c => decide ('a' ≤ c ∧ c ≤ 'z'))
  if w.length ≤ 3 then 1
  else
    let vowelGroups := runsCount isVowelY w
    let count := if vowelGroups = 0 then 1 else vowelGroups
    let count := if w.getLast? = some 'e' then count - 1 else count
    max 1 count

/-- The Flesch normalization at the heart of `calculateReadability`:
`Math.max(0, Math.min(10, (206.835 - 1.015*awps - 84.6*aspw) / 10))`. -/
def fleschNormalized (avgWordsPerSentence avgSyllablesPerWord : ℚ) : ℚ :=
  max 0 (min 10
    ((206.835 - 1.015 * avgWordsPerSentence - 84.6 * avgSyllablesPerWord) / 10))

/-- `calculateReadability`. -/
def calculateReadability (text : Str) : ℚ :=
  if text = [] ∨ text.length < 10 then 0
  else
    let words := (jsSplitWs text).filter (fun w => decide (0 < w.length))
    let sentences := (jsSplitRuns (fun c => ['.', '!', '?'].contains c) text).filter
      (fun s => decide (0 < (trimL s).length))
    let syllables := (words.map countSyllables).sum
    if sentences.length = 0 ∨ words.length = 0 then 0
    else fleschNormalized ((words.length : ℚ) / (sentences.length : ℚ))
      ((syllables : ℚ) / (words.length : ℚ))

/-! ### Headline, CTA, specificity and persuasiveness analyzers -/

structure HeadlineFeatures where
  hasNumber : Bool
  hasActionVerb : Bool
  wordCount : Nat
  hasQuestion : Bool
  hasEmotionalWords : Bool
  hasNegation : Bool
  optimalLength : Bool
deriving DecidableEq

structure HeadlineResult where
  score : ℚ
  features : HeadlineFeatures
deriving DecidableEq

/-- `analyzeHeadlineEffectiveness`. -/
def analyzeHeadlineEffectiveness (env : Env) (headline : Str) : HeadlineResult :=
  if headline = [] ∨ headline.length < 5 then
    { score := 0, features := ⟨false, false, 0, false, false, false, false⟩ }
  else
    let doc := safeNlp env headline
    let tokens := safeTokenize env headline
    let hasNumber := headline.any Char.isDigit
    let hasActionVerb :=
      match doc with
      | some d => d.verbs.any (fun verb => actionVerbs.contains (toLowerL verb))
      | none => tokens.any (fun t => actionVerbs.contains t)
    let wordCount := tokens.length
    let hasQuestion := headline.contains '?'
    let hasEmotionalWords := tokens.any (fun w => emotionalWords.contains w)
    let hasNegation := tokens.any (fun w => negationWords.contains w)
    let score : ℚ := 50
    let score :=
      if 6 ≤ wordCount ∧ wordCount ≤ 12 then score + 15
      else if wordCount < 6 then score - 10
      else if 15 < wordCount then score - 15
      else score
    let score := if hasNumber then score + 15 else score
    let score := if hasActionVerb then score + 10 else score
    let score := if hasEmotionalWords then score + 10 else score
    let score := if hasQuestion then score + 5 else score
    let score := if hasNegation then score + 8 else score
    let score :=
      match headline with
      | c :: _ => if c = c.toUpper then score + 5 else score
      | [] => score
    { score := max 0 (min 100 score)
      features := ⟨hasNumber, hasActionVerb, wordCount, hasQuestion,
        hasEmotionalWords, hasNegation, decide (6 ≤ wordCount ∧ wordCount ≤ 12)⟩ }

structure CtaFeatures where
  startsWithVerb : Bool
  hasUrgency : Bool
  hasFreeOffer : Bool
  isShort : Bool
  wordCount : Nat
deriving DecidableEq

structure CtaResult where
  score : ℚ
  features : CtaFeatures
deriving DecidableEq

/-- `analyzeCtaEffectiveness`. -/
def analyzeCtaEffectiveness (env : Env) (ctaText : Str) : CtaResult :=
  if ctaText = [] ∨ ctaText.length < 2 then
    { score := 0, features := ⟨false, false, false, false, 0⟩ }
  else
    let tokens := safeTokenize env ctaText
    let doc := safeNlp env ctaText
    let startsWithVerb :=
      (match doc with
       | some d => decide (0 < d.verbs.length)
       | none => false) &&
      ctaStartVerbs.any (fun v => startsWithL v (toLowerL ctaText))
    let hasUrgency := ctaUrgencyWords.any (fun w => inclL w (toLowerL ctaText))
    let hasFreeOffer := freeOfferWords.any (fun w => inclL w (toLowerL ctaText))
    let wordCount := tokens.length
    let isShort := decide (1 ≤ wordCount ∧ wordCount ≤ 4)
    let score : ℚ := 50
    let score := if startsWithVerb then score + 20 else score
    let score := if hasUrgency then score + 15 else score
    let score := if hasFreeOffer then score + 15 else score
    let score := if isShort then score + 15 else if 6 < wordCount then score - 15 else score
    let score :=
      if genericCtas.any (fun g => inclL g (toLowerL ctaText)) then score - 20 else score
    { score := max 0 (min 100 score)
      features := ⟨startsWithVerb, hasUrgency, hasFreeOffer, isShort, wordCount⟩ }

/-- `analyzeSpecificity`. -/
def analyzeSpecificity (env : Env) (text : Str) : ℚ :=
  if text = [] ∨ text.length < 10 then 0
  else
    let doc := safeNlp env text
    let numbers := runsCount Char.isDigit text
    let percentages := pctCount text
    let properNouns :=
      match doc with
      | some d => d.properNouns
      | none => 0
    let tokens := safeTokenize env text
    let vagueCount := tokens.countP (fun w => vagueWords.contains w)
    let score : ℚ := 5
    let score := score + min 3 ((numbers : ℚ) * 0.5)
    let score := score + min 2 ((percentages : ℚ) * 1)
    let score := score + min 2 ((properNouns : ℚ) * 0.3)
    let score := score - min 3 ((vagueCount : ℚ) * 0.5)
    max 0 (min 10 score)

/-- `analyzePersuasiveness`. -/
def analyzePersuasiveness (env : Env) (text : Str) : ℚ :=
  if text = [] ∨ text.length < 10 then 0
  else
    let tokens := safeTokenize env text
    let benefitCount := tokens.countP (fun w => benefitWords.contains w)
    let urgencyCount := tokens.countP (fun w => persuasiveUrgencyWords.contains w)
    let socialProofCount := tokens.countP (fun w => socialProofWords.contains w)
    let powerWordCount := tokens.countP (fun w => powerWords.contains w)
    let score : ℚ := 3
    let score := score + min 3 ((benefitCount : ℚ) * 0.8)
    let score := score + min 2 ((urgencyCount : ℚ) * 0.7)
    let score := score + min 2 ((socialProofCount : ℚ) * 0.8)
    let score := score + min 1 ((powerWordCount : ℚ) * 0.5)
    max 0 (min 10 score)

/-! ### Lexicon-based sentiment fallback -/

/-- The word list `createFallbackSentiment` scans: lowercased whitespace
split of the text (`(text || '').toLowerCase().split(/\s+/)`). -/
def sentimentTokens (text : Str) : List Str := jsSplitWs (toLowerL text)

/-- Count of positive-lexicon hits. -/
def positiveCount (text : Str) : Nat :=
  (sentimentTokens text).countP (fun w => positiveWords.contains w)

/-- Count of negative-lexicon hits. -/
def negativeCount (text : Str) : Nat :=
  (sentimentTokens text).countP (fun w => negativeWords.contains w)

/-- `createFallbackSentiment`. -/
def createFallbackSentiment (text : Str) : Sentiment :=
  if negativeCount text < positiveCount text then
    ⟨.POSITIVE, 0.6 + (positiveCount text : ℚ) * 0.05⟩
  else if positiveCount text < negativeCount text then
    ⟨.NEGATIVE, 0.6 + (negativeCount text : ℚ) * 0.05⟩
  else ⟨.NEUTRAL, 0.5⟩

/-! ### The composite scorer `analyzeMl` -/

/-- The extractor's output record. -/
structure ExtractedContent where
  headline : Str
  subheadline : Str
  cta : List Str
  bodyCopy : Str
deriving DecidableEq

/-- `Math.round`: round half upward, i.e. `⌊q + 1/2⌋`. -/
def jsRound (q : ℚ) : ℤ := (q + 1/2).floor

/-- JS `Array.prototype.join(' ')`. -/
def joinSp (l : List Str) : Str := List.intercalate [' '] l

/- Per-section score records. Fields the error-path fallback object of
`analyzeMl` leaves `undefined` are `Option`s (`none` = absent). -/

structure HeadlineScores where
  mlScore : ℤ
  sentiment : Sentiment
  readability : Option ℤ
  specificity : Option ℤ
  persuasiveness : Option ℤ
  actionability : Option ℤ
  features : HeadlineFeatures
  prediction : String
deriving DecidableEq

structure SubheadlineScores where
  mlScore : ℤ
  sentiment : Sentiment
  readability : Option ℤ
  specificity : Option ℤ
  clarity : Option ℤ
  prediction : String
deriving DecidableEq

structure CtaScores where
  mlScore : ℤ
  actionability : Option ℤ
  persuasiveness : Option ℤ
  urgency : Option ℤ
  features : CtaFeatures
  prediction : String
deriving DecidableEq

structure BodyCopyScores where
  mlScore : ℤ
  sentiment : Sentiment
  readability : Option ℤ
  persuasiveness : Option ℤ
  prediction : String
deriving DecidableEq

structure OverallScores where
  mlScore : ℤ
  confidence : String
  modelVersion : String
deriving DecidableEq

structure MlScores where
  headline : HeadlineScores
  subheadline : SubheadlineScores
  cta : CtaScores
  bodyCopy : BodyCopyScores
  overall : OverallScores
deriving DecidableEq

/-- The sentiment step of `analyzeMl`: the three awaited transformer calls
when the model path is available (any rejection propagates to the
surrounding try/catch), else the pure lexicon fallback. -/
def getSentiments (env : Env) (c : ExtractedContent) :
    Except Unit (Sentiment × Sentiment × Sentiment) :=
  if env.modelsAvailable then do
    let headlineSentiment ← env.mlSentiment c.headline
    let subheadlineSentiment ← env.mlSentiment c.subheadline
    let bodyCopySentiment ← env.mlSentiment c.bodyCopy
    pure (headlineSentiment, subheadlineSentiment, bodyCopySentiment)
  else
    pure (createFallbackSentiment c.headline,
      createFallbackSentiment c.subheadline,
      createFallbackSentiment c.bodyCopy)

/-- The `mlScores` object built by the try block of `analyzeMl`
(source lines 376-426), given the three section sentiments. -/
def buildMlScores (env : Env) (c : ExtractedContent)
    (sents : Sentiment × Sentiment × Sentiment) : MlScores :=
  let headlineEffectiveness := analyzeHeadlineEffectiveness env c.headline
  let ctaEffectiveness := analyzeCtaEffectiveness env (c.cta.headD [])
  let headlineReadability := calculateReadability c.headline
  let subheadlineReadability := calculateReadability c.subheadline
  let bodyReadability := calculateReadability c.bodyCopy
  let headlineSpecificity := analyzeSpecificity env c.headline
  let subheadlineSpecificity := analyzeSpecificity env c.subheadline
  let headlinePersuasiveness := analyzePersuasiveness env c.headline
  let ctaPersuasiveness := analyzePersuasiveness env (joinSp c.cta)
  let bodyPersuasiveness := analyzePersuasiveness env c.bodyCopy
  { headline :=
    { mlScore := jsRound headlineEffectiveness.score
      sentiment := sents.1
      readability := some (jsRound headlineReadability)
      specificity := some (jsRound headlineSpecificity)
      persuasiveness := some (jsRound headlinePersuasiveness)
      actionability := some (if headlineEffectiveness.features.hasActionVerb then 8 else 3)
      features := headlineEffectiveness.features
      prediction :=
        if 70 ≤ headlineEffectiveness.score then "High engagement potential"
        else if 50 ≤ headlineEffectiveness.score then "Moderate engagement potential"
        else "Low engagement potential" }
    subheadline :=
    { mlScore := jsRound ((subheadlineReadability + subheadlineSpecificity) * 5)
      sentiment := sents.2.1
      readability := some (jsRound subheadlineReadability)
      specificity := some (jsRound subheadlineSpecificity)
      clarity := some (jsRound subheadlineReadability)
      prediction :=
        if 7 ≤ subheadlineReadability then "Clear and readable" else "Could be clearer" }
    cta :=
    { mlScore := jsRound ctaEffectiveness.score
      actionability := some (if ctaEffectiveness.features.startsWithVerb then 9 else 4)
      persuasiveness := some (jsRound ctaPersuasiveness)
      urgency := some (if ctaEffectiveness.features.hasUrgency then 9 else 3)
      features := ctaEffectiveness.features
      prediction :=
        if 70 ≤ ctaEffectiveness.score then "Strong CTA with clear action"
        else if 50 ≤ ctaEffectiveness.score then "Decent CTA, could be stronger"
        else "Weak CTA, needs improvement" }
    bodyCopy :=
    { mlScore := jsRound ((bodyReadability + bodyPersuasiveness) * 5)
      sentiment := sents.2.2
      readability := some (jsRound bodyReadability)
      persuasiveness := some (jsRound bodyPersuasiveness)
      prediction :=
        if 7 ≤ bodyReadability ∧ 6 ≤ bodyPersuasiveness then
          "Engaging and persuasive content"
        else "Content needs optimization" }
    overall :=
    { mlScore := jsRound
        (headlineEffectiveness.score * 0.30
          + (subheadlineReadability + subheadlineSpecificity) * 5 * 0.25
          + ctaEffectiveness.score * 0.25
          + (bodyReadability + bodyPersuasiveness) * 5 * 0.20)
      confidence := if env.modelsAvailable then "High" else "Medium (rule-based)"
      modelVersion :=
        if env.modelsAvailable then "DistilBERT + Linguistic Analysis v1.0"
        else "Rule-based Analysis v1.0" } }

/-- The fixed neutral bundle returned by the catch block of `analyzeMl`
(source lines 441-447). -/
def fallbackMlScores : MlScores :=
  { headline :=
    { mlScore := 50, sentiment := ⟨.NEUTRAL, 0.5⟩, readability := none
      specificity := none, persuasiveness := none, actionability := none
      features := ⟨false, false, 0, false, false, false, false⟩
      prediction := "Analysis unavailable" }
    subheadline :=
    { mlScore := 50, sentiment := ⟨.NEUTRAL, 0.5⟩, readability := none
      specificity := none, clarity := none, prediction := "Analysis unavailable" }
    cta :=
    { mlScore := 50, actionability := none, persuasiveness := none
      urgency := none, features := ⟨false, false, false, false, 0⟩
      prediction := "Analysis unavailable" }
    bodyCopy :=
    { mlScore := 50, sentiment := ⟨.NEUTRAL, 0.5⟩, readability := none
      persuasiveness := none, prediction := "Analysis unavailable" }
    overall :=
    { mlScore := 50, confidence := "Low (fallback)", modelVersion := "Fallback v1.0" } }

/-- `analyzeMl`: the composite scorer. The whole body sits in a
try/catch; an error from the awaited sentiment step is caught and
converted into `fallbackMlScores` instead of propagating. -/
def analyzeMl (env : Env) (c : ExtractedContent) : MlScores :=
  match getSentiments env c with
  | .ok sents => buildMlScores env c sents
  | .error _ => fallbackMlScores

/-! ### `initializeModels`: the module-level model initialization state -/

/-- The module-level mutable variables `initializeModels` reads and
writes: `pipeline !== null`, `mlAvailable`, `sentimentAnalyzer !== null`
and `classificationModel !== null`. A fresh process starts with all four
false. (`natural`/`nlp` from `initializeDependencies` play no role in the
model path and are omitted.) -/
structure MlState where
  pipelineLoaded : Bool
  mlAvailable : Bool
  sentimentLoaded : Bool
  classificationLoaded : Bool
deriving DecidableEq

/-- The fresh-process state: all module variables null/false. -/
def initialMlState : MlState := ⟨false, false, false, false⟩

/-- Outcomes of the three awaitable steps of `initializeModels`: the
dynamic `import('@xenova/transformers')` and the two `pipeline(...)`
model loads. -/
structure InitOracle where
  importTransformers : Except Unit Unit
  loadSentiment : Except Unit Unit
  loadClassification : Except Unit Unit

/-- The part of `initializeModels` after the import block: the
`!mlAvailable || !pipeline` early return and the try/catch loading the
two models (a load failure sets `mlAvailable = false` and returns
false). `attempted` is threaded through unchanged. -/
def initializeModelsLoad (o : InitOracle) (s : MlState) (attempted : Bool) :
    Bool × MlState × Bool :=
  if !s.mlAvailable || !s.pipelineLoaded then (false, s, attempted)
  else
    match (if s.sentimentLoaded then Except.ok () else o.loadSentiment) with
    | .error _ => (false, { s with mlAvailable := false }, attempted)
    | .ok _ =>
      let s1 := { s with sentimentLoaded := true }
      match (if s1.classificationLoaded then Except.ok () else o.loadClassification) with
      | .error _ => (false, { s1 with mlAvailable := false }, attempted)
      | .ok _ => (true, { s1 with classificationLoaded := true }, attempted)

/-- One call of `initializeModels`, returning its boolean result, the new
module state, and whether this call executed the dynamic import of
`@xenova/transformers` (the initialization attempt the spec says must
happen at most once per process). The guard is the source's line-36
condition `mlAvailable === false && sentimentAnalyzer === null &&
pipeline === null`. -/
def initializeModels (o : InitOracle) (s : MlState) : Bool × MlState × Bool :=
  if !s.mlAvailable && !s.sentimentLoaded && !s.pipelineLoaded then
    match o.importTransformers with
    | .error _ => (false, { s with mlAvailable := false }, true)
    | .ok _ => initializeModelsLoad o { s with pipelineLoaded := true, mlAvailable := true } true
  else initializeModelsLoad o s false

/-! ### The content extractor -/

/-- A parsed HTML page as the extractor queries it (the `cheerio` DOM is
external). Every field holds trimmed-later raw element texts in document
order, taken after the `script/style/noscript/iframe` removal:
`h1Texts`/`h2Texts`/`paragraphTexts` are the texts of `h1`/`h2`/`p`
elements, `titleText` is `$('title').text()`, `buttonTexts` the texts of
`button, a.btn, a.button, [role=button], a[class*=cta], a[class*=CTA]`
elements, `linkTexts` the `(text, href)` pairs of `a` elements (an absent
or empty `href` attribute is the empty string, both falsy in JS), and
`bodyText` is `$('body').text()`. -/
structure Doc where
  h1Texts : List Str
  titleText : Str
  h2Texts : List Str
  paragraphTexts : List Str
  buttonTexts : List Str
  linkTexts : List (Str × Str)
  bodyText : Str

/-- Headline selection: first `h1` text, else title, else placeholder. -/
def extractHeadline (doc : Doc) : Str :=
  if trimL (doc.h1Texts.headD []) = [] then
    if trimL doc.titleText = [] then strL "No headline found" else trimL doc.titleText
  else trimL (doc.h1Texts.headD [])

/-- Subheadline selection: first `h2` text, else the first paragraph whose
trimmed length is strictly between 20 and 300, else placeholder. -/
def extractSubheadline (doc : Doc) : Str :=
  if trimL (doc.h2Texts.headD []) = [] then
    match (doc.paragraphTexts.map trimL).find?
        (fun t => decide (20 < t.length) && decide (t.length < 300)) with
    | some t => t
    | none => strL "No subheadline found"
  else trimL (doc.h2Texts.headD [])

/-- The alternatives of the link-fallback regex
`/^(get|start|try|buy|sign|join|learn|download|subscribe)/i`. -/
def ctaLinkActionWords : List Str :=
  [strL "get", strL "start", strL "try", strL "buy", strL "sign",
   strL "join", strL "learn", strL "download", strL "subscribe"]

/-- CTA candidates: button-like elements with trimmed text of length
strictly between 2 and 100; if none, links whose trimmed text begins,
case-insensitively, with an action word and that carry a non-empty
`href`. -/
def extractCtaElements (doc : Doc) : List Str :=
  if doc.buttonTexts.filterMap (fun s =>
      if trimL s ≠ [] ∧ (trimL s).length < 100 ∧ 2 < (trimL s).length then some (trimL s)
      else none) = [] then
    doc.linkTexts.filterMap (fun p =>
      if trimL p.1 ≠ [] ∧ p.2 ≠ [] ∧
          (ctaLinkActionWords.any (fun v => startsWithL v (toLowerL (trimL p.1)))) = true then
        some (trimL p.1)
      else none)
  else
    doc.buttonTexts.filterMap (fun s =>
      if trimL s ≠ [] ∧ (trimL s).length < 100 ∧ 2 < (trimL s).length then some (trimL s)
      else none)

/-- The paragraph-accumulation loop of the body-copy extraction:
paragraphs with trimmed length over 20 are appended (plus a space),
stopping as soon as the accumulator exceeds 500 characters. -/
def buildBody : List Str → Str → Str
  | [], acc => acc
  | p :: ps, acc =>
    let text := trimL p
    if 20 < text.length then
      let acc1 := acc ++ text ++ [' ']
      if 500 < acc1.length then acc1 else buildBody ps acc1
    else buildBody ps acc

/-- Body copy: the accumulated first-10-paragraph text trimmed and cut to
800 characters, else the whole page text cut to 800. -/
def extractBodyCopy (doc : Doc) : Str :=
  if (trimL (buildBody (doc.paragraphTexts.take 10) [])).take 800 = [] then
    (trimL doc.bodyText).take 800
  else (trimL (buildBody (doc.paragraphTexts.take 10) [])).take 800

/-- `extractContent`. -/
def extractContent (doc : Doc) : ExtractedContent :=
  { headline := (extractHeadline doc).take 300
    subheadline := (extractSubheadline doc).take 500
    cta := if (extractCtaElements doc).take 5 = [] then [strL "No CTA found"]
      else (extractCtaElements doc).take 5
    bodyCopy := if extractBodyCopy doc = [] then strL "No body content found"
      else extractBodyCopy doc }

/-! ### Definitions following the claims' words, for comparison with the code -/

/-- The headline-effectiveness formula exactly as claim C3 words it: the
clamped-to-[0,100] sum of the base and the listed bonuses, with "+5 if
its first character is uppercase" read literally (`Char.isUpper`).
Token count and the lexicon features are those of the code's
deterministic fallback tokenization, which the claim's worked example
uses. -/
def claimHeadlineScore (headline : Str) : ℚ :=
  let tokens := (jsSplitWs (toLowerL headline)).filter (fun w => decide (0 < w.length))
  let wordCount := tokens.length
  max 0 (min 100 ((50 : ℚ)
    + (if 6 ≤ wordCount ∧ wordCount ≤ 12 then 15
       else if wordCount < 6 then -10
       else if 15 < wordCount then -15 else 0)
    + (if headline.any Char.isDigit then 15 else 0)
    + (if tokens.any (fun t => actionVerbs.contains t) then 10 else 0)
    + (if tokens.any (fun w => emotionalWords.contains w) then 10 else 0)
    + (if headline.contains '?' then 5 else 0)
    + (if tokens.any (fun w => negationWords.contains w) then 8 else 0)
    + (match headline with
       | c :: _ => if c.isUpper then (5 : ℚ) else 0
       | [] => 0)))

/-- Claim C3's formula amended to what the code computes: the final bonus
fires when the first character EQUALS ITS OWN UPPERCASE FORM
(`headline[0] === headline[0].toUpperCase()`), which also holds for
digits and punctuation. -/
def claimHeadlineScoreAmended (headline : Str) : ℚ :=
  let tokens := (jsSplitWs (toLowerL headline)).filter (fun w => decide (0 < w.length))
  let wordCount := tokens.length
  max 0 (min 100 ((50 : ℚ)
    + (if 6 ≤ wordCount ∧ wordCount ≤ 12 then 15
       else if wordCount < 6 then -10
       else if 15 < wordCount then -15 else 0)
    + (if headline.any Char.isDigit then 15 else 0)
    + (if tokens.any (fun t => actionVerbs.contains t) then 10 else 0)
    + (if tokens.any (fun w => emotionalWords.contains w) then 10 else 0)
    + (if headline.contains '?' then 5 else 0)
    + (if tokens.any (fun w => negationWords.contains w) then 8 else 0)
    + (match headline with
       | c :: _ => if c = c.toUpper then (5 : ℚ) else 0
       | [] => 0)))

/-- The overall formula exactly as claim C4 words it: the weighted sum
uses the ROUNDED subheadline and body composites. -/
def claimOverallScore (env : Env) (c : ExtractedContent) : ℤ :=
  jsRound ((analyzeHeadlineEffectiveness env c.headline).score * 0.30
    + ((jsRound ((calculateReadability c.subheadline + analyzeSpecificity env c.subheadline) * 5) : ℚ)) * 0.25
    + (analyzeCtaEffectiveness env (c.cta.headD [])).score * 0.25
    + ((jsRound ((calculateReadability c.bodyCopy + analyzePersuasiveness env c.bodyCopy) * 5) : ℚ)) * 0.20)

/-! ### Concrete fixtures for witnesses and counterexamples -/

/-- Degraded environment: no tokenizer, no parser, no transformer model
(the situation the code documents as expected on Vercel). -/
def envDegraded : Env := ⟨none, none, false, fun _ => .error ()⟩

/-- Environment whose awaited transformer sentiment call always rejects. -/
def envThrowing : Env := ⟨none, none, true, fun _ => .error ()⟩

/-- Extracted content on which the claimed (rounded-composite) overall
formula and the code's overall disagree. -/
def exampleContentC4 : ExtractedContent :=
  ⟨strL "Hi", strL "He has 4 cats. It is big.", [], strL "Hi."⟩

/-- Extracted content whose headline has nine positive-lexicon hits. -/
def exampleContentC6 : ExtractedContent :=
  ⟨strL "good good good good good good good good good", strL "x", [], strL "y"⟩

/-- A page with no buttons and one action-word link of 104 characters. -/
def exampleDocC2 : Doc :=
  ⟨[], [], [], [], [], [(strL "Get " ++ List.replicate 100 'a', strL "/x")], []⟩

/-- A headline whose first character is a digit. -/
def exampleHeadlineC3 : Str := strL "5 easy ways to boost your sales"

/-- Initialization oracle in which the transformers import fails. -/
def exampleOracleFailingImport : InitOracle := ⟨.error (), .ok (), .ok ()⟩

/-- Initialization oracle in which every step succeeds. -/
def exampleOracleOk : InitOracle := ⟨.ok (), .ok (), .ok ()⟩

/-! ## Theorems

The core arithmetic of the embedding lives in `ℚ`; the interpreter marks
the primitive `Rat` operations irreducible, which only hides them from
unfolding during elaboration — making them semireducible again lets
`decide` evaluate concrete runs of the pipeline. -/

attribute [local semireducible] Rat.add Rat.sub Rat.mul Rat.inv Rat.ofScientific

/-- C1: whenever a step of the composite scoring computation inside
`analyzeMl` throws (the awaited sentiment step rejecting), the error is
not propagated: the fixed neutral fallback bundle is returned, in which
every section's mlScore is 50, every sentiment is NEUTRAL with score 0.5,
and the overall confidence is "Low (fallback)". -/
theorem analyzeMl_error_returns_fallback_bundle (env : Env) (c : ExtractedContent)
    (e : Unit) (h : getSentiments env c = .error e) :
    analyzeMl env c = fallbackMlScores ∧
    (analyzeMl env c).headline.mlScore = 50 ∧
    (analyzeMl env c).subheadline.mlScore = 50 ∧
    (analyzeMl env c).cta.mlScore = 50 ∧
    (analyzeMl env c).bodyCopy.mlScore = 50 ∧
    (analyzeMl env c).overall.mlScore = 50 ∧
    (analyzeMl env c).headline.sentiment = ⟨.NEUTRAL, 0.5⟩ ∧
    (analyzeMl env c).subheadline.sentiment = ⟨.NEUTRAL, 0.5⟩ ∧
    (analyzeMl env c).bodyCopy.sentiment = ⟨.NEUTRAL, 0.5⟩ ∧
    (analyzeMl env c).overall.confidence = "Low (fallback)" := by
  have hm : analyzeMl env c = fallbackMlScores := by
    unfold analyzeMl
    rw [h]
  rw [hm]
  exact ⟨rfl, rfl, rfl, rfl, rfl, rfl, by decide, by decide, by decide, rfl⟩

/-- Witness for C1: a concrete environment whose sentiment model rejects. -/
theorem analyzeMl_error_returns_fallback_bundle_witness :
    getSentiments envThrowing exampleContentC4 = .error () ∧
    analyzeMl envThrowing exampleContentC4 = fallbackMlScores := by
  refine ⟨rfl, ?_⟩
  exact (analyzeMl_error_returns_fallback_bundle envThrowing exampleContentC4 () rfl).1

/-- C5: the lexicon-based sentiment fallback returns POSITIVE with score
0.6 + 0.05·positiveCount when positive hits strictly exceed negative
hits, NEGATIVE with 0.6 + 0.05·negativeCount when negative hits strictly
exceed positive hits, and otherwise NEUTRAL with score 0.5. -/
theorem createFallbackSentiment_trichotomy (text : Str) :
    (negativeCount text < positiveCount text →
      createFallbackSentiment text =
        ⟨.POSITIVE, 0.6 + (positiveCount text : ℚ) * 0.05⟩) ∧
    (positiveCount text < negativeCount text →
      createFallbackSentiment text =
        ⟨.NEGATIVE, 0.6 + (negativeCount text : ℚ) * 0.05⟩) ∧
    (positiveCount text = negativeCount text →
      createFallbackSentiment text = ⟨.NEUTRAL, 0.5⟩) := by
  unfold createFallbackSentiment
  refine ⟨fun h => ?_, fun h => ?_, fun h => ?_⟩
  · rw [if_pos h]
  · rw [if_neg (by omega), if_pos h]
  · rw [if_neg (by omega), if_neg (by omega)]

/-- Witness for C5: the claim's example text has 2 positive hits, 0
negative hits, and scores POSITIVE 0.70. -/
theorem createFallbackSentiment_trichotomy_witness :
    positiveCount (strL "This is the best and most amazing product") = 2 ∧
    negativeCount (strL "This is the best and most amazing product") = 0 ∧
    createFallbackSentiment (strL "This is the best and most amazing product") =
      ⟨.POSITIVE, 7/10⟩ := by
  refine ⟨by decide, by decide, ?_⟩
  have h := (createFallbackSentiment_trichotomy
    (strL "This is the best and most amazing product")).1 (by decide)
  exact h.trans (by decide)

/-- C9 (the code contradicts it): with the transformers import failing,
the first `initializeModels` call runs the dynamic import, leaves the
module state equal to the fresh state, and the second call therefore runs
the dynamic import AGAIN — the line-36 guard matches the post-failure
state, so a failed initialization is not memoized. On the all-success
oracle the second call does skip the import, as the claim describes. -/
theorem initializeModels_reattempts_import_after_failure :
    (initializeModels exampleOracleFailingImport initialMlState).2.2 = true ∧
    (initializeModels exampleOracleFailingImport initialMlState).2.1 = initialMlState ∧
    (initializeModels exampleOracleFailingImport
      (initializeModels exampleOracleFailingImport initialMlState).2.1).2.2 = true ∧
    (initializeModels exampleOracleOk
      (initializeModels exampleOracleOk initialMlState).2.1).2.2 = false := by
  decide

/-- C6 counterexample: on the lexicon fallback path a section sentiment
score can exceed 1 — a headline of nine positive-lexicon words gets score
0.6 + 9·0.05 = 1.05. -/
theorem fallback_sentiment_score_exceeds_one :
    ¬ ((analyzeMl envDegraded exampleContentC6).headline.sentiment.score ≤ 1) := by
  decide

/-- C6 amended: the produced sentiment score is always at least 0.5, and
it lies in [0,1] provided the winning lexicon-hit count is at most 8
(the label is one of POSITIVE/NEGATIVE/NEUTRAL by the type of
`SentLabel`). -/
theorem fallback_sentiment_score_bounds_amended (text : Str) :
    1/2 ≤ (createFallbackSentiment text).score ∧
    (positiveCount text ≤ 8 → negativeCount text ≤ 8 →
      (createFallbackSentiment text).score ≤ 1) := by
  unfold createFallbackSentiment
  split_ifs with h1 h2
  · refine ⟨?_, fun hp _ => ?_⟩
    · show (1/2 : ℚ) ≤ 0.6 + (positiveCount text : ℚ) * 0.05
      have h0 : (0 : ℚ) ≤ (positiveCount text : ℚ) := Nat.cast_nonneg _
      norm_num
      linarith
    · show (0.6 + (positiveCount text : ℚ) * 0.05 : ℚ) ≤ 1
      have h8 : (positiveCount text : ℚ) ≤ 8 := by exact_mod_cast hp
      norm_num
      linarith
  · refine ⟨?_, fun _ hn => ?_⟩
    · show (1/2 : ℚ) ≤ 0.6 + (negativeCount text : ℚ) * 0.05
      have h0 : (0 : ℚ) ≤ (negativeCount text : ℚ) := Nat.cast_nonneg _
      norm_num
      linarith
    · show (0.6 + (negativeCount text : ℚ) * 0.05 : ℚ) ≤ 1
      have h8 : (negativeCount text : ℚ) ≤ 8 := by exact_mod_cast hn
      norm_num
      linarith
  · exact ⟨by norm_num, fun _ _ => by norm_num⟩

/-- Witness for the amended C6 at a concrete text. -/
theorem fallback_sentiment_score_bounds_amended_witness :
    1/2 ≤ (createFallbackSentiment (strL "a nice day")).score ∧
    (createFallbackSentiment (strL "a nice day")).score ≤ 1 := by
  have h := fallback_sentiment_score_bounds_amended (strL "a nice day")
  exact ⟨h.1, h.2 (by decide) (by decide)⟩

/-- C4 counterexample: on `exampleContentC4` the code's overall mlScore is
19, while the claim's formula — which feeds the ROUNDED subheadline and
body composites into the weighted sum — yields 20. -/
theorem overall_score_rounded_composites_counterexample :
    (analyzeMl envDegraded exampleContentC4).overall.mlScore = 19 ∧
    claimOverallScore envDegraded exampleContentC4 = 20 ∧
    (analyzeMl envDegraded exampleContentC4).overall.mlScore ≠
      claimOverallScore envDegraded exampleContentC4 := by
  decide

/-- C4 amended: whenever the sentiment step succeeds, the overall mlScore
is the rounded weighted sum computed from the UNROUNDED composites
(readability + specificity)·5 and (readability + persuasiveness)·5; only
the per-section mlScores are the rounded composites. -/
theorem overall_score_unrounded_formula (env : Env) (c : ExtractedContent)
    (sents : Sentiment × Sentiment × Sentiment)
    (h : getSentiments env c = .ok sents) :
    (analyzeMl env c).overall.mlScore = jsRound
      ((analyzeHeadlineEffectiveness env c.headline).score * 0.30
        + (calculateReadability c.subheadline + analyzeSpecificity env c.subheadline) * 5 * 0.25
        + (analyzeCtaEffectiveness env (c.cta.headD [])).score * 0.25
        + (calculateReadability c.bodyCopy + analyzePersuasiveness env c.bodyCopy) * 5 * 0.20) ∧
    (analyzeMl env c).subheadline.mlScore = jsRound
      ((calculateReadability c.subheadline + analyzeSpecificity env c.subheadline) * 5) ∧
    (analyzeMl env c).bodyCopy.mlScore = jsRound
      ((calculateReadability c.bodyCopy + analyzePersuasiveness env c.bodyCopy) * 5) := by
  unfold analyzeMl
  rw [h]
  exact ⟨rfl, rfl, rfl⟩

/-- Witness for the amended C4: concrete evaluation on `exampleContentC4`
in the degraded environment, where the sentiment step trivially
succeeds. -/
theorem overall_score_unrounded_formula_witness :
    (analyzeMl envDegraded exampleContentC4).overall.mlScore = jsRound
      ((analyzeHeadlineEffectiveness envDegraded exampleContentC4.headline).score * 0.30
        + (calculateReadability exampleContentC4.subheadline
            + analyzeSpecificity envDegraded exampleContentC4.subheadline) * 5 * 0.25
        + (analyzeCtaEffectiveness envDegraded (exampleContentC4.cta.headD [])).score * 0.25
        + (calculateReadability exampleContentC4.bodyCopy
            + analyzePersuasiveness envDegraded exampleContentC4.bodyCopy) * 5 * 0.20) := by
  exact (overall_score_unrounded_formula envDegraded exampleContentC4 _ rfl).1

/-- C3 counterexample: the claim's "+5 if its first character is
uppercase" disagrees with the code on a headline starting with a digit:
the code awards the bonus whenever `headline[0] ===
headline[0].toUpperCase()`, which a digit satisfies. The code scores this
headline 85; the claim's formula yields 80. -/
theorem headline_uppercase_bonus_counterexample :
    (analyzeHeadlineEffectiveness envDegraded exampleHeadlineC3).score = 85 ∧
    claimHeadlineScore exampleHeadlineC3 = 80 ∧
    (analyzeHeadlineEffectiveness envDegraded exampleHeadlineC3).score ≠
      claimHeadlineScore exampleHeadlineC3 := by
  decide

/-- C8: the normalized Flesch score used by `calculateReadability` is
antitone in the average words-per-sentence and in the average
syllables-per-word, each with the other argument held fixed. -/
theorem fleschNormalized_antitone (a a' b b' : ℚ) :
    (a ≤ a' → fleschNormalized a' b ≤ fleschNormalized a b) ∧
    (b ≤ b' → fleschNormalized a b' ≤ fleschNormalized a b) := by
  constructor
  · intro h
    unfold fleschNormalized
    refine max_le_max le_rfl (min_le_min le_rfl ?_)
    have h1 : (1.015 : ℚ) * a ≤ 1.015 * a' := by nlinarith
    linarith
  · intro h
    unfold fleschNormalized
    refine max_le_max le_rfl (min_le_min le_rfl ?_)
    have h1 : (84.6 : ℚ) * b ≤ 84.6 * b' := by nlinarith
    linarith

/-- Witness for C8 at concrete argument pairs. -/
theorem fleschNormalized_antitone_witness :
    fleschNormalized 2 1 ≤ fleschNormalized 1 1 ∧
    fleschNormalized 1 2 ≤ fleschNormalized 1 1 := by
  exact ⟨(fleschNormalized_antitone 1 2 1 1).1 (by norm_num),
    (fleschNormalized_antitone 1 1 1 2).2 (by norm_num)⟩

/-- Helper: if `s` starts with `p` then `p` is no longer than `s`. -/
theorem startsWithL_length_le (p : Str) (s : Str) (h : startsWithL p s = true) :
    p.length ≤ s.length := by
  induction p generalizing s with
  | nil => simp
  | cons c p ih =>
    cases s with
    | nil => simp [startsWithL] at h
    | cons d s =>
      simp only [startsWithL, Bool.and_eq_true] at h
      simpa using ih s h.2

/-- Helper: every CTA start verb has at least three characters. -/
theorem ctaStartVerbs_length (v : Str) (hv : v ∈ ctaStartVerbs) : 3 ≤ v.length := by
  fin_cases hv <;> decide

/-- C7: the "starts with verb" CTA feature is true exactly when the
syntactic parser is available and reports at least one verb AND the
lowercased text starts with one of the fixed verbs; in particular it is
false for every text when the parser is unavailable. -/
theorem cta_startsWithVerb_iff (env : Env) (text : Str) :
    ((analyzeCtaEffectiveness env text).features.startsWithVerb = true ↔
      ((∃ f, env.nlpDoc = some f ∧ (f text).verbs ≠ []) ∧
        ∃ v ∈ ctaStartVerbs, startsWithL v (toLowerL text) = true)) ∧
    (env.nlpDoc = none →
      (analyzeCtaEffectiveness env text).features.startsWithVerb = false) := by
  have hlen : (∃ v ∈ ctaStartVerbs, startsWithL v (toLowerL text) = true) →
      3 ≤ text.length := by
    rintro ⟨v, hv, hsw⟩
    have h3 : 3 ≤ v.length := ctaStartVerbs_length v hv
    have h4 : v.length ≤ (toLowerL text).length := startsWithL_length_le v _ hsw
    have h5 : (toLowerL text).length = text.length := List.length_map _ _
    omega
  unfold analyzeCtaEffectiveness
  by_cases h : text = [] ∨ text.length < 2
  · rw [if_pos h]
    have hsmall : text.length < 2 := by
      rcases h with h | h
      · subst h; simp
      · exact h
    refine ⟨?_, fun _ => rfl⟩
    constructor
    · intro hf
      exact absurd hf (by simp)
    · rintro ⟨-, hpre⟩
      have := hlen hpre
      omega
  · rw [if_neg h]
    have htext : text ≠ [] := fun he => h (Or.inl he)
    dsimp only
    constructor
    · cases hdoc : env.nlpDoc with
      | none => simp [safeNlp, htext, hdoc]
      | some f =>
        simp [safeNlp, htext, hdoc, List.any_eq_true]
        intro x _ _
        exact List.length_pos
    · intro hdoc
      simp [safeNlp, htext, hdoc]

/-- Witness for C7: with the parser unavailable the flag is false even
for a text whose lowercased prefix matches ("Get started"). -/
theorem cta_startsWithVerb_iff_witness :
    (analyzeCtaEffectiveness envDegraded (strL "Get started")).features.startsWithVerb
      = false ∧
    startsWithL (strL "get") (toLowerL (strL "Get started")) = true := by
  exact ⟨(cta_startsWithVerb_iff envDegraded (strL "Get started")).2 rfl, by decide⟩

/-- C10: the CTA section's mlScore and feature set depend only on the
first CTA element (and the non-CTA fields): two contents that agree on
the headline, subheadline, body copy and first CTA element produce
identical `cta.mlScore` and `cta.features`, whatever the remaining CTA
elements are. -/
theorem cta_score_depends_only_on_first_cta (env : Env) (c1 c2 : ExtractedContent)
    (hh : c1.headline = c2.headline) (hs : c1.subheadline = c2.subheadline)
    (hb : c1.bodyCopy = c2.bodyCopy) (hc : c1.cta.headD [] = c2.cta.headD []) :
    (analyzeMl env c1).cta.mlScore = (analyzeMl env c2).cta.mlScore ∧
    (analyzeMl env c1).cta.features = (analyzeMl env c2).cta.features := by
  have hgs : getSentiments env c1 = getSentiments env c2 := by
    unfold getSentiments
    rw [hh, hs, hb]
  unfold analyzeMl
  rw [hgs]
  cases hg : getSentiments env c2 with
  | error e => exact ⟨rfl, rfl⟩
  | ok sents =>
    unfold buildMlScores
    dsimp only
    rw [hc]
    exact ⟨rfl, rfl⟩

/-- Helper: a conditional increment pulled out as a conditional
contribution. -/
theorem ite_add_extract (p : Prop) [Decidable p] (x a : ℚ) :
    (if p then x + a else x) = x + (if p then a else 0) := by
  split <;> simp

/-- Helper: the word-count branch of the headline score pulled out as a
conditional contribution. -/
theorem lengthBonus_extract (p1 p2 p3 : Prop) [Decidable p1] [Decidable p2] [Decidable p3] :
    (if p1 then (50 : ℚ) + 15 else if p2 then 50 - 10 else if p3 then 50 - 15 else 50) =
    50 + (if p1 then 15 else if p2 then -10 else if p3 then -15 else 0) := by
  split_ifs <;> norm_num

/-- C3 amended: in the deterministic fallback mode (no tokenizer, no
parser) the headline-effectiveness score of any headline of length at
least 5 equals the claim's clamped-sum formula with the final bonus
corrected to "first character equals its own uppercase form". -/
theorem analyzeHeadlineEffectiveness_formula_amended (env : Env) (headline : Str)
    (ht : env.tokenizer = none) (hn : env.nlpDoc = none) (hl : 5 ≤ headline.length) :
    (analyzeHeadlineEffectiveness env headline).score =
      claimHeadlineScoreAmended headline := by
  have htext : headline ≠ [] := by
    intro he
    rw [he] at hl
    simp at hl
  obtain ⟨c, rest, rfl⟩ : ∃ c rest, headline = c :: rest := by
    cases headline with
    | nil => exact absurd rfl htext
    | cons c rest => exact ⟨c, rest, rfl⟩
  unfold analyzeHeadlineEffectiveness claimHeadlineScoreAmended
  rw [if_neg (by push_neg; exact ⟨htext, by omega⟩)]
  simp only [safeNlp, safeTokenize, ht, hn, if_neg htext, Option.map_none']
  simp only [ite_add_extract, lengthBonus_extract]

/-- Witness for the amended C3: the claim's own example headline scores
70, matching the formula (5 tokens, number, action verb, leading
capital). -/
theorem analyzeHeadlineEffectiveness_formula_amended_witness :
    (analyzeHeadlineEffectiveness envDegraded (strL "Get 3x More Leads Today")).score =
      claimHeadlineScoreAmended (strL "Get 3x More Leads Today") ∧
    claimHeadlineScoreAmended (strL "Get 3x More Leads Today") = 70 := by
  exact ⟨analyzeHeadlineEffectiveness_formula_amended envDegraded
    (strL "Get 3x More Leads Today") rfl rfl (by decide), by decide⟩

/-- Witness for C10: dropping the second CTA element does not change the
CTA mlScore or features. -/
theorem cta_score_depends_only_on_first_cta_witness :
    (analyzeMl envDegraded
      ⟨strL "Hi there", strL "x", [strL "Get it", strL "Buy now today"], strL "y"⟩).cta.mlScore =
    (analyzeMl envDegraded
      ⟨strL "Hi there", strL "x", [strL "Get it"], strL "y"⟩).cta.mlScore := by
  exact (cta_score_depends_only_on_first_cta envDegraded
    ⟨strL "Hi there", strL "x", [strL "Get it", strL "Buy now today"], strL "y"⟩
    ⟨strL "Hi there", strL "x", [strL "Get it"], strL "y"⟩ rfl rfl rfl rfl).1

/-- C2 counterexample: a page whose only CTA candidate comes from the
link fallback, with a 104-character link text starting with "Get": the
extracted CTA violates the claimed per-element bound `length < 100` (the
fallback path never checks an upper length bound). -/
theorem extractContent_cta_length_bound_counterexample :
    ¬ (∀ t ∈ (extractContent exampleDocC2).cta, 2 < t.length ∧ t.length < 100) := by
  decide

/-- Helper: a positive-length take of a non-empty list is non-empty. -/
theorem take_ne_nil {α : Type} (l : List α) (n : Nat) (hl : l ≠ []) (hn : 0 < n) :
    l.take n ≠ [] := by
  cases l with
  | nil => exact absurd rfl hl
  | cons a l =>
    cases n with
    | zero => omega
    | succ n => simp

/-- Helper: every branch of the headline selection is non-empty. -/
theorem extractHeadline_ne_nil (doc : Doc) : extractHeadline doc ≠ [] := by
  unfold extractHeadline
  split_ifs with h1 h2
  · decide
  · exact h2
  · exact h1

/-- Helper: every branch of the subheadline selection is non-empty. -/
theorem extractSubheadline_ne_nil (doc : Doc) : extractSubheadline doc ≠ [] := by
  unfold extractSubheadline
  split_ifs with h1
  · cases hf : (doc.paragraphTexts.map trimL).find?
        (fun t => decide (20 < t.length) && decide (t.length < 300)) with
    | none =>
      simp [hf]
      decide
    | some t =>
      have hp := List.find?_some hf
      simp only [Bool.and_eq_true, decide_eq_true_eq] at hp
      simp only [hf]
      intro he
      rw [he] at hp
      simp at hp
  · exact h1

/-- Helper: every link-fallback action word has at least three characters. -/
theorem ctaLinkActionWords_length (v : Str) (hv : v ∈ ctaLinkActionWords) : 3 ≤ v.length := by
  fin_cases hv <;> decide

/-- Helper: every extracted CTA candidate has more than two characters
(the button path checks `2 < length` directly; a link-fallback text
starts with an action word of length at least three). -/
theorem extractCtaElements_length (doc : Doc) (t : Str) (ht : t ∈ extractCtaElements doc) :
    2 < t.length := by
  unfold extractCtaElements at ht
  split at ht
  · rw [List.mem_filterMap] at ht
    obtain ⟨p, hp, hfp⟩ := ht
    split_ifs at hfp with hc
    · injection hfp with hfp
      subst hfp
      obtain ⟨-, -, hany⟩ := hc
      rw [List.any_eq_true] at hany
      obtain ⟨v, hv, hsw⟩ := hany
      have h3 : 3 ≤ v.length := ctaLinkActionWords_length v hv
      have h4 : v.length ≤ (toLowerL (trimL p.1)).length := startsWithL_length_le v _ hsw
      have h5 : (toLowerL (trimL p.1)).length = (trimL p.1).length := List.length_map _ _
      omega
  · rw [List.mem_filterMap] at ht
    obtain ⟨s, hs, hfs⟩ := ht
    split_ifs at hfs with hc
    · injection hfs with hfs
      subst hfs
      exact hc.2.2

/-- C2 amended: for every page, the extracted record has non-empty
headline, subheadline, body copy and CTA list, with headline at most 300
characters, subheadline at most 500, body copy at most 800, at most 5
CTAs, and every CTA strictly longer than 2 characters. (The claimed
upper bound `< 100` per CTA holds only for the button path, not for the
link fallback — see the counterexample.) -/
theorem extractContent_invariant_amended (doc : Doc) :
    (extractContent doc).headline ≠ [] ∧ (extractContent doc).headline.length ≤ 300 ∧
    (extractContent doc).subheadline ≠ [] ∧ (extractContent doc).subheadline.length ≤ 500 ∧
    (extractContent doc).bodyCopy ≠ [] ∧ (extractContent doc).bodyCopy.length ≤ 800 ∧
    (extractContent doc).cta ≠ [] ∧ (extractContent doc).cta.length ≤ 5 ∧
    ∀ t ∈ (extractContent doc).cta, 2 < t.length := by
  refine ⟨?_, ?_, ?_, ?_, ?_, ?_, ?_, ?_, ?_⟩
  · exact take_ne_nil _ 300 (extractHeadline_ne_nil doc) (by norm_num)
  · show ((extractHeadline doc).take 300).length ≤ 300
    rw [List.length_take]
    exact min_le_left _ _
  · exact take_ne_nil _ 500 (extractSubheadline_ne_nil doc) (by norm_num)
  · show ((extractSubheadline doc).take 500).length ≤ 500
    rw [List.length_take]
    exact min_le_left _ _
  · show (if extractBodyCopy doc = [] then strL "No body content found"
      else extractBodyCopy doc) ≠ []
    split_ifs with h
    · decide
    · exact h
  · show (if extractBodyCopy doc = [] then strL "No body content found"
      else extractBodyCopy doc).length ≤ 800
    split_ifs with h
    · decide
    · unfold extractBodyCopy
      split_ifs with h2
      · rw [List.length_take]
        exact min_le_left _ _
      · rw [List.length_take]
        exact min_le_left _ _
  · show (if (extractCtaElements doc).take 5 = [] then [strL "No CTA found"]
      else (extractCtaElements doc).take 5) ≠ []
    split_ifs with h
    · simp
    · exact h
  · show (if (extractCtaElements doc).take 5 = [] then [strL "No CTA found"]
      else (extractCtaElements doc).take 5).length ≤ 5
    split_ifs with h
    · simp
    · rw [List.length_take]
      exact le_trans (min_le_left _ _) (by norm_num)
  · intro t ht
    have ht2 : t ∈ (if (extractCtaElements doc).take 5 = [] then [strL "No CTA found"]
        else (extractCtaElements doc).take 5) := ht
    split_ifs at ht2 with h
    · rw [List.mem_singleton] at ht2
      subst ht2
      decide
    · exact extractCtaElements_length doc t (List.mem_of_mem_take ht2)

/-- Witness for the amended C2 at the concrete page: the record is
populated and the CTA list non-empty. -/
theorem extractContent_invariant_amended_witness :
    (extractContent exampleDocC2).headline ≠ [] ∧
    (extractContent exampleDocC2).cta ≠ [] := by
  exact ⟨(extractContent_invariant_amended exampleDocC2).1,
    (extractContent_invariant_amended exampleDocC2).2.2.2.2.2.2.1⟩

end LeadBoost
